import Mathlib

/-!
Verification of the conversation-orchestration core of the camera-feed
query assistant: the LangGraph workflow (`src/services/nodes.py`,
`src/services/graph_service.py`), its in-memory conversation store, and
the chatbot controller (`src/controllers/chatbot_controller.py`).

The Python source is shallowly embedded: pure helpers become Lean
functions on `String`/`List Char`; the store becomes explicit state
passing; exceptions become `Except`; the external model and tool
endpoints become oracle parameters.  Regular-expression substitutions
from the source are implemented as direct scanning functions whose
semantics follow the Python `re` module on the patterns in question.
-/

namespace CanyonCode

/-- Python whitespace, as recognised by `str.strip()` and the ASCII part
of the regex class `\s`. -/
def isPySpace (c : Char) : Bool :=
  c = ' ' || c = '\t' || c = '\n' || c = '\r' || c = '\x0b' || c = '\x0c'

/-- Python `str.strip()` on a character list. -/
def pyStripChars (l : List Char) : List Char :=
  (((l.dropWhile isPySpace).reverse).dropWhile isPySpace).reverse

/-- Python `str.strip()`. -/
def pyStrip (s : String) : String := String.mk (pyStripChars s.data)

/-- Python substring test `sub in s`, on character lists. -/
def listContainsSub (sub : List Char) : List Char → Bool
  | [] => sub.isPrefixOf []
  | c :: rest => sub.isPrefixOf (c :: rest) || listContainsSub sub rest

/-- Python substring test `sub in s`. -/
def strContains (s sub : String) : Bool := listContainsSub sub.data s.data

/-- The part of `cs` before the first occurrence of `sub`
(Python `s.split(sub)[0]` for a `sub` known to occur). -/
def beforeFirst (sub : List Char) : List Char → List Char
  | [] => []
  | c :: rest =>
    if sub.isPrefixOf (c :: rest) then [] else c :: beforeFirst sub rest

/-- Python `s.replace(pat, repl)`: non-overlapping left-to-right
replacement, fuelled by the input length (each step consumes at least
one character for a non-empty `pat`). -/
def replaceList (pat repl : List Char) : Nat → List Char → List Char
  | 0, cs => cs
  | _ + 1, [] => []
  | fuel + 1, c :: rest =>
    if !pat.isEmpty && pat.isPrefixOf (c :: rest) then
      repl ++ replaceList pat repl fuel ((c :: rest).drop pat.length)
    else
      c :: replaceList pat repl fuel rest

/-- Python `s.replace(pat, repl)`. -/
def pyReplace (s pat repl : String) : String :=
  String.mk (replaceList pat.data repl.data s.data.length s.data)

/-- The last `n` elements of a list: Python `l[-n:]` for `n ≥ 1`,
and also Python `l[k:]` trimming semantics used by `save_message`. -/
def takeLastN (n : Nat) (l : List α) : List α := l.drop (l.length - n)

/-- Python `l[-limit:]` for a non-negative `limit`: because `-0 == 0`,
`limit = 0` yields the whole list, not the empty one. -/
def pySliceLastNeg (limit : Nat) (l : List α) : List α :=
  if limit = 0 then l else takeLastN limit l

/-! ## The conversation store (`graph_service.py`) -/

/-- One entry of the in-memory history: the dict
`\x7b"role", "content", "timestamp"\x7d` built by `save_message`. -/
structure StoredMsg where
  role : String
  content : String
  timestamp : String
deriving DecidableEq, Repr

/-- The module-level `conversation_memory` dict, as a total map from
thread_id to that thread's list; an absent key reads as `[]`, which is
exactly how `get_conversation_history` treats unknown threads. -/
def Store := String → List StoredMsg

/-- The store at process start: no thread has any history. -/
def emptyStore : Store := fun _ => []

/-- `save_message(thread_id, role, content)`: appends the message dict —
the `str(datetime.now())` timestamp is the opaque string `now` — and, when
the thread exceeds 50 entries, keeps only the last 50. -/
def save_message (now : String) (store : Store) (thread_id role content : String) :
    Store :=
  fun t =>
    if t = thread_id then
      let l := store thread_id ++ [⟨role, content, now⟩]
      if l.length > 50 then takeLastN 50 l else l
    else store t

/-- LangChain message objects as the workflow uses them. `id` stands for
the message's unique identifier (a UUID in LangChain, numbered here);
`remove` is `RemoveMessage(id=...)`. -/
inductive LCMsg where
  | human (id : Nat) (content : String)
  | ai (id : Nat) (content : String)
  | remove (id : Nat)
deriving DecidableEq, Repr

/-- The id carried by a message. -/
def LCMsg.msgId : LCMsg → Nat
  | .human i _ => i
  | .ai i _ => i
  | .remove i => i

/-- The `content` attribute (a `RemoveMessage` carries the empty
default). -/
def LCMsg.content : LCMsg → String
  | .human _ c => c
  | .ai _ c => c
  | .remove _ => ""

/-- The conversion loop inside `get_conversation_history`: role "user"
becomes a `HumanMessage`, "assistant" an `AIMessage`, anything else is
skipped.  The fresh LangChain objects are given their position in the
slice as id, standing for distinct fresh identifiers. -/
def toLCMessages (l : List StoredMsg) : List LCMsg :=
  l.enum.filterMap fun im =>
    if im.2.role = "user" then some (.human im.1 im.2.content)
    else if im.2.role = "assistant" then some (.ai im.1 im.2.content)
    else none

/-- `get_conversation_history(thread_id, limit)`: slice
`conversation_memory[thread_id][-limit:]` when the thread is longer than
`limit` (the whole list otherwise, and `[]` for an unknown thread), then
convert the dicts to LangChain messages. -/
def get_conversation_history (store : Store) (thread_id : String) (limit : Nat) :
    List LCMsg :=
  let hist := store thread_id
  let sliced := if hist.length > limit then pySliceLastNeg limit hist else hist
  toLCMessages sliced

/-- The message list `GraphWithMemory.invoke` seeds the graph with for
one turn: history loaded with the default limit 20, followed by the
single `HumanMessage` the controller builds from the request query (its
fresh UUID modelled as id 20, one past every id the loaded history can
carry). -/
def seededMessages (store : Store) (thread_id query : String) : List LCMsg :=
  get_conversation_history store thread_id 20 ++ [LCMsg.human 20 query]

/-! ## Output cleaning (`nodes.py`) -/

/-- `remove_sources_from_response`: everything before the first
"Sources:", stripped; unchanged when no "Sources:" occurs. -/
def remove_sources_from_response (response : String) : String :=
  if strContains response "Sources:" then
    String.mk (pyStripChars (beforeFirst ("Sources:".data) response.data))
  else response

/-- Index of the last newline in `w`, if any. -/
def lastNlIdx (w : List Char) : Option Nat :=
  match w.reverse.findIdx? (fun c => c = '\n') with
  | some j => some (w.length - 1 - j)
  | none => none

/-- Greedy match of `\s*\n` at the head of `cs` (used by the
`^Query Results \(\d+ rows\):\s*\n` banner): consume the whitespace run
up to and including its last newline; fail when the leading whitespace
holds no newline.  Returns what follows the match. -/
def wsThenNl (cs : List Char) : Option (List Char) :=
  match lastNlIdx (cs.takeWhile isPySpace) with
  | some k => some (cs.drop (k + 1))
  | none => none

/-- Anchored match of `^Query Results \(\d+ rows\):\s*\n`
(`\d` taken as an ASCII digit): returns the remainder on success. -/
def matchBanner (cs : List Char) : Option (List Char) :=
  let lit1 := "Query Results (".data
  if lit1.isPrefixOf cs then
    let cs1 := cs.drop lit1.length
    let digits := cs1.takeWhile Char.isDigit
    if digits.isEmpty then none
    else
      let cs2 := cs1.drop digits.length
      let lit2 := " rows):".data
      if lit2.isPrefixOf cs2 then wsThenNl (cs2.drop lit2.length) else none
  else none

/-- Greedy match of `-+\s*$` at a line start, for
`re.sub(r'^-+\s*$', '', s, flags=re.MULTILINE)`: one or more dashes, then
the longest whitespace run after which `$` holds (end of string, or just
before a newline).  Returns the match length.  When the tail is not all
whitespace, the greedy-with-backtracking end is just before the last
newline of the whitespace run. -/
def dashMatchLen (cs : List Char) : Option Nat :=
  let d := (cs.takeWhile (fun c => c = '-')).length
  if d = 0 then none
  else
    let rest := cs.drop d
    let w := rest.takeWhile isPySpace
    if w.length = rest.length then some (d + rest.length)
    else
      match lastNlIdx w with
      | some k => some (d + k)
      | none => none

/-- The scan of the MULTILINE substitution `^-+\s*$` → `''`: at each
`^` position try the greedy match and delete it, resuming after the
match.  A match always ends at the end of the string or just before a
newline, and a newline cannot start a new match, so resuming with the
line-start flag cleared agrees with the regex semantics. -/
def dashScan : Nat → Bool → List Char → List Char
  | 0, _, cs => cs
  | _ + 1, _, [] => []
  | fuel + 1, atStart, c :: rest =>
    if atStart then
      match dashMatchLen (c :: rest) with
      | some m => dashScan fuel false ((c :: rest).drop m)
      | none => c :: dashScan fuel (c = '\n') rest
    else c :: dashScan fuel (c = '\n') rest

/-- `re.sub(r'\n\x7b3,\x7d', '\n\n', s)`: each maximal run of three or
more newlines becomes exactly two. -/
def collapseNlScan : Nat → List Char → List Char
  | 0, cs => cs
  | _ + 1, [] => []
  | fuel + 1, c :: rest =>
    if c = '\n' then
      let run := 1 + (rest.takeWhile (fun x => x = '\n')).length
      let tail2 := (c :: rest).drop run
      (if run ≥ 3 then ['\n', '\n'] else (c :: rest).take run) ++
        collapseNlScan fuel tail2
    else c :: collapseNlScan fuel rest

/-- `clean_sql_result_formatting` on characters: strip an "SQL Results:"
prefix, the "Query Results (n rows):" banner, separator-dash lines,
collapse runs of 3+ newlines, and strip the ends. -/
def cleanSqlChars (cs : List Char) : List Char :=
  let s := if ("SQL Results:".data).isPrefixOf cs then pyStripChars (cs.drop 12) else cs
  let s := match matchBanner s with
           | some rest => rest
           | none => s
  let s := dashScan s.length true s
  let s := collapseNlScan s.length s
  pyStripChars s

/-- `clean_sql_result_formatting`. -/
def clean_sql_result_formatting (sql_result : String) : String :=
  String.mk (cleanSqlChars sql_result.data)

/-- The shortest newline-free content closing a lazy `(.*?)\*\*` group:
scan for the first "**", failing at a newline or the end (the dot does
not match newlines).  Returns (group, remainder after the closing
fence). -/
def boldClose : List Char → Option (List Char × List Char)
  | [] => none
  | '*' :: '*' :: r => some ([], r)
  | '\n' :: _ => none
  | c :: r =>
    match boldClose r with
    | some p => some (c :: p.1, p.2)
    | none => none

/-- The scan of `re.sub(r'\*\*(.*?)\*\*', r'\1', s)`: at each position
try a lazy bold match, emit its group and resume after it; otherwise
emit the character. -/
def subBoldScan : Nat → List Char → List Char
  | 0, cs => cs
  | _ + 1, [] => []
  | fuel + 1, c :: rest =>
    match c :: rest with
    | '*' :: '*' :: r =>
      match boldClose r with
      | some p => p.1 ++ subBoldScan fuel p.2
      | none => c :: subBoldScan fuel rest
    | _ => c :: subBoldScan fuel rest

/-- The shortest newline-free content closing a lazy `(.*?)\*` group. -/
def italicClose : List Char → Option (List Char × List Char)
  | [] => none
  | '*' :: r => some ([], r)
  | '\n' :: _ => none
  | c :: r =>
    match italicClose r with
    | some p => some (c :: p.1, p.2)
    | none => none

/-- The scan of `re.sub(r'\*(.*?)\*', r'\1', s)`. -/
def subItalicScan : Nat → List Char → List Char
  | 0, cs => cs
  | _ + 1, [] => []
  | fuel + 1, c :: rest =>
    if c = '*' then
      match italicClose rest with
      | some p => p.1 ++ subItalicScan fuel p.2
      | none => c :: subItalicScan fuel rest
    else c :: subItalicScan fuel rest

/-- Split a character list into its lines (separator `'\n'`). -/
def splitNl : List Char → List (List Char)
  | [] => [[]]
  | c :: rest =>
    match splitNl rest with
    | [] => [[c]]
    | l :: ls => if c = '\n' then [] :: l :: ls else (c :: l) :: ls

/-- Rejoin lines with `'\n'`. -/
def joinNl : List (List Char) → List Char
  | [] => []
  | [l] => l
  | l :: ls => l ++ '\n' :: joinNl ls

/-- `re.sub(r'^- ', '• ', s, flags=re.MULTILINE)`: only a line-leading
"- " is replaced, so the substitution acts line by line. -/
def subBullets (cs : List Char) : List Char :=
  joinNl ((splitNl cs).map fun line =>
    if ("- ".data).isPrefixOf line then '•' :: ' ' :: line.drop 2 else line)

/-- `clean_markdown_formatting` on characters: strip an "Answer:" label,
drop "RAG Analysis Results:" occurrences, erase bold then italic
emphasis, normalise line-leading "- " bullets to "• ", collapse runs of
3+ newlines, drop code fences and backticks, and strip the ends. -/
def cleanMarkdownChars (cs : List Char) : List Char :=
  let s := if ("Answer:".data).isPrefixOf cs then pyStripChars (cs.drop 7) else cs
  let s := if listContainsSub ("RAG Analysis Results:".data) s then
             pyStripChars (replaceList ("RAG Analysis Results:".data) [] s.length s)
           else s
  let s := subBoldScan s.length s
  let s := subItalicScan s.length s
  let s := subBullets s
  let s := collapseNlScan s.length s
  let s := replaceList ("`".data) [] (replaceList ("```".data) [] s.length s).length
             (replaceList ("```".data) [] s.length s)
  pyStripChars s

/-- `clean_markdown_formatting`. -/
def clean_markdown_formatting (response : String) : String :=
  String.mk (cleanMarkdownChars response.data)

/-- The context-retrieval cleaning pipeline of `call_rag_tool`: source
section removal followed by markdown cleaning. -/
def rag_cleaning (s : String) : String :=
  clean_markdown_formatting (remove_sources_from_response s)

/-! ## JSON values and `json.loads` (used by `analyze_query_intent`) -/

/-- The values `json.loads` can produce (numbers as rationals; `nanV` and
`infV` stand for the non-finite floats Python accepts for `NaN`,
`Infinity` and `-Infinity`). -/
inductive Json where
  | null
  | bool (b : Bool)
  | num (q : Rat)
  | str (s : String)
  | arr (l : List Json)
  | obj (l : List (String × Json))
  | nanV
  | infV (neg : Bool)

/-- JSON inter-token whitespace. -/
def isJsonWs (c : Char) : Bool := c = ' ' || c = '\t' || c = '\n' || c = '\r'

/-- Hexadecimal digit value. -/
def hexVal (c : Char) : Option Nat :=
  if '0' ≤ c ∧ c ≤ '9' then some (c.toNat - 48)
  else if 'a' ≤ c ∧ c ≤ 'f' then some (c.toNat - 87)
  else if 'A' ≤ c ∧ c ≤ 'F' then some (c.toNat - 55)
  else none

/-- Single-character JSON string escapes. -/
def escChar : Char → Option Char
  | '"' => some '"'
  | '\\' => some '\\'
  | '/' => some '/'
  | 'b' => some '\x08'
  | 'f' => some '\x0c'
  | 'n' => some '\n'
  | 'r' => some '\r'
  | 't' => some '\t'
  | _ => none

/-- JSON string body after the opening quote: raw control characters are
rejected (strict mode), escapes are decoded, `\uXXXX` becomes the code
point (an invalid scalar falls back to `Char.ofNat`'s default).  Returns
the content and what follows the closing quote. -/
def parseJString : Nat → List Char → Option (List Char × List Char)
  | 0, _ => none
  | _ + 1, [] => none
  | fuel + 1, c :: rest =>
    if c = '"' then some ([], rest)
    else if c = '\\' then
      match rest with
      | 'u' :: a :: b :: cc :: d :: r =>
        match hexVal a, hexVal b, hexVal cc, hexVal d with
        | some x, some y, some z, some w =>
          match parseJString fuel r with
          | some p => some (Char.ofNat (((x * 16 + y) * 16 + z) * 16 + w) :: p.1, p.2)
          | none => none
        | _, _, _, _ => none
      | e :: r =>
        match escChar e with
        | some ch =>
          match parseJString fuel r with
          | some p => some (ch :: p.1, p.2)
          | none => none
        | none => none
      | [] => none
    else if c.toNat < 32 then none
    else
      match parseJString fuel rest with
      | some p => some (c :: p.1, p.2)
      | none => none

/-- Value of a decimal digit string. -/
def digitsVal (l : List Char) : Nat :=
  l.foldl (fun a c => a * 10 + (c.toNat - 48)) 0

/-- The JSON number token regex
`(-?(?:0|[1-9]\d*))(\.\d+)?([eE][-+]?\d+)?`, as Python's scanner applies
it: the longest token match is converted, and whatever follows is left
for the surrounding grammar. -/
def parseNumber (cs : List Char) : Option (Rat × List Char) :=
  let signed := match cs with
    | '-' :: r => some (true, r)
    | _ => some (false, cs)
  match signed with
  | some (neg, cs1) =>
    let intPart : Option (Nat × List Char) :=
      match cs1 with
      | '0' :: r => some (0, r)
      | c :: _ =>
        if c.isDigit ∧ c ≠ '0' then
          some (digitsVal (cs1.takeWhile Char.isDigit), cs1.dropWhile Char.isDigit)
        else none
      | [] => none
    match intPart with
    | none => none
    | some (ip, cs2) =>
      let fracPart : Nat × Nat × List Char :=
        match cs2 with
        | '.' :: r =>
          let fd := r.takeWhile Char.isDigit
          if fd.isEmpty then (0, 0, cs2)
          else (digitsVal fd, fd.length, r.dropWhile Char.isDigit)
        | _ => (0, 0, cs2)
      let expPart : Bool × Nat × List Char :=
        let cs3 := fracPart.2.2
        match cs3 with
        | e :: r =>
          if e = 'e' ∨ e = 'E' then
            let signAndRest : Bool × List Char :=
              match r with
              | '+' :: r2 => (false, r2)
              | '-' :: r2 => (true, r2)
              | _ => (false, r)
            let ed := signAndRest.2.takeWhile Char.isDigit
            if ed.isEmpty then (false, 0, cs3)
            else (signAndRest.1, digitsVal ed, signAndRest.2.dropWhile Char.isDigit)
          else (false, 0, cs3)
        | [] => (false, 0, cs3)
      let mantissa : Nat := ip * 10 ^ fracPart.2.1 + fracPart.1
      let signedM : Int := if neg then -(mantissa : Int) else (mantissa : Int)
      let scaled : Rat :=
        if expPart.1 then mkRat signedM (10 ^ (fracPart.2.1 + expPart.2.1))
        else mkRat (signedM * (10 : Int) ^ expPart.2.1) (10 ^ fracPart.2.1)
      some (scaled, expPart.2.2)
  | none => none

mutual

/-- One JSON value at the head of the input (whitespace already
skipped), following Python's scanner dispatch. -/
def parseValue : Nat → List Char → Option (Json × List Char)
  | 0, _ => none
  | _ + 1, [] => none
  | fuel + 1, c :: rest =>
    if c = '"' then
      match parseJString fuel rest with
      | some p => some (.str (String.mk p.1), p.2)
      | none => none
    else if c = '\x7b' then parseObjBody fuel (List.dropWhile isJsonWs rest)
    else if c = '[' then parseArrBody fuel (List.dropWhile isJsonWs rest)
    else if ("null".data).isPrefixOf (c :: rest) then some (.null, (c :: rest).drop 4)
    else if ("true".data).isPrefixOf (c :: rest) then some (.bool true, (c :: rest).drop 4)
    else if ("false".data).isPrefixOf (c :: rest) then some (.bool false, (c :: rest).drop 5)
    else if ("NaN".data).isPrefixOf (c :: rest) then some (.nanV, (c :: rest).drop 3)
    else if ("Infinity".data).isPrefixOf (c :: rest) then some (.infV false, (c :: rest).drop 8)
    else if ("-Infinity".data).isPrefixOf (c :: rest) then some (.infV true, (c :: rest).drop 9)
    else
      match parseNumber (c :: rest) with
      | some p => some (.num p.1, p.2)
      | none => none

/-- Object body after `\x7b` and whitespace: members or an immediate
`\x7d`. -/
def parseObjBody : Nat → List Char → Option (Json × List Char)
  | 0, _ => none
  | _ + 1, [] => none
  | fuel + 1, c :: rest =>
    if c = '\x7d' then some (.obj [], rest)
    else
      match parseMembers fuel [] (c :: rest) with
      | some p => some (.obj p.1, p.2)
      | none => none

/-- Object members: `"key" : value (, "key" : value)* \x7d`,
accumulating in source order (duplicates kept; lookups take the last,
as `dict` construction makes later entries win). -/
def parseMembers : Nat → List (String × Json) → List Char →
    Option (List (String × Json) × List Char)
  | 0, _, _ => none
  | _ + 1, _, [] => none
  | fuel + 1, acc, c :: rest =>
    if c = '"' then
      match parseJString fuel rest with
      | none => none
      | some (key, afterKey) =>
        match List.dropWhile isJsonWs afterKey with
        | ':' :: afterColon =>
          match parseValue fuel (List.dropWhile isJsonWs afterColon) with
          | none => none
          | some (v, afterVal) =>
            match List.dropWhile isJsonWs afterVal with
            | ',' :: afterComma =>
              parseMembers fuel (acc ++ [(String.mk key, v)])
                (List.dropWhile isJsonWs afterComma)
            | '\x7d' :: afterBrace => some (acc ++ [(String.mk key, v)], afterBrace)
            | _ => none
        | _ => none
    else none

/-- Array body after `[` and whitespace: elements or an immediate `]`. -/
def parseArrBody : Nat → List Char → Option (Json × List Char)
  | 0, _ => none
  | _ + 1, [] => none
  | fuel + 1, c :: rest =>
    if c = ']' then some (.arr [], rest)
    else
      match parseElems fuel [] (c :: rest) with
      | some p => some (.arr p.1, p.2)
      | none => none

/-- Array elements: `value (, value)* ]`. -/
def parseElems : Nat → List Json → List Char → Option (List Json × List Char)
  | 0, _, _ => none
  | fuel + 1, acc, cs =>
    match parseValue fuel cs with
    | none => none
    | some (v, afterVal) =>
      match List.dropWhile isJsonWs afterVal with
      | ',' :: afterComma => parseElems fuel (acc ++ [v]) (List.dropWhile isJsonWs afterComma)
      | ']' :: afterBracket => some (acc ++ [v], afterBracket)
      | _ => none

end

/-- `json.loads`: a single value with only whitespace around it (the
fuel bounds the grammar steps and exceeds what any input can take). -/
def jsonLoads (s : String) : Option Json :=
  match parseValue (4 * s.data.length + 8) (List.dropWhile isJsonWs s.data) with
  | some p => if (List.dropWhile isJsonWs p.2).isEmpty then some p.1 else none
  | none => none

/-! ## The workflow state, nodes and graph (`nodes.py`, `graph_service.py`) -/

/-- The `AgentState` TypedDict of `state_models.py`: the message list
(reduced by `add_messages`), the tool-result mapping (never touched by
the modelled nodes), and the rolling summary.  The controller builds the
input state without the `tool_results` and `summary` keys; `state.get`
reads them as their empty defaults, so they are plain fields here. -/
structure AgentState where
  messages : List LCMsg
  tool_results : List (String × String)
  summary : String
deriving DecidableEq, Repr

/-- The `add_messages` reducer, one message at a time: a `RemoveMessage`
deletes the entry carrying its id, an id already present is replaced in
place, and a fresh id is appended.  (On an absent id LangGraph raises;
the modelled code only ever removes ids it just read from the state, so
that branch is a no-op here.) -/
def addOneMessage (acc : List LCMsg) (m : LCMsg) : List LCMsg :=
  match m with
  | .remove i => acc.filter fun x => x.msgId ≠ i
  | _ =>
    if acc.any (fun x => x.msgId = m.msgId) then
      acc.map fun x => if x.msgId = m.msgId then m else x
    else acc ++ [m]

/-- The `add_messages` reducer over a node's returned message list. -/
def add_messages (left right : List LCMsg) : List LCMsg :=
  right.foldl addOneMessage left

/-- A fresh identifier for a newly created message, standing for the
fresh UUID LangChain assigns: one past every id in the list. -/
def freshId (ms : List LCMsg) : Nat :=
  ms.foldr (fun m n => max (m.msgId + 1) n) 0

/-- External effects.  Each `llm` field is the environment's reply to
the model call issued at one call site (the prompt built there is a
fixed function of the listed arguments, so nothing is lost);
`Except.error` stands for the call raising.  The two tool wrappers
(`rag_query_via_mcp`, `sql_query_via_mcp`) catch every exception and
return a string — an unreachable server becomes an "Error: ..." text —
so they are total.  `now` is the opaque `str(datetime.now())`. -/
structure Oracles where
  llmSummarize : List LCMsg → Except String String
  llmIntent : String → Except String String
  llmSql : String → String → Except String String
  llmSynth : String → String → Except String String
  rag_query_via_mcp : String → String
  sql_query_via_mcp : String → String
  now : String

/-- The fence stripping of `analyze_query_intent`: strip, drop a leading
"```json" (7 characters) or else "```", drop a trailing "```", strip. -/
def stripFencesChars (cs : List Char) : List Char :=
  let c := pyStripChars cs
  let c := if ("```json".data).isPrefixOf c then c.drop 7
           else if ("```".data).isPrefixOf c then c.drop 3
           else c
  let c := if ("```".data).isSuffixOf c then c.take (c.length - 3) else c
  pyStripChars c

/-- The hard-coded fallback record of `analyze_query_intent`
(`\x7b"intent": "metadata_query", "confidence": 0.5, "reasoning": ...\x7d`;
the Python reasoning text interpolates the exception message, which no
caller reads). -/
def intentFallback : Json :=
  .obj [("intent", .str "metadata_query"), ("confidence", .num (mkRat 1 2)),
        ("reasoning", .str "LLM analysis failed")]

/-- `analyze_query_intent`: one model call (made outside the `try`, so a
model failure propagates), then fence stripping and `json.loads`; any
parse failure yields the fallback record, and a successful parse is
returned without validation. -/
def analyze_query_intent (o : Oracles) (query : String) : Except String Json :=
  match o.llmIntent query with
  | .error e => .error e
  | .ok content =>
    .ok (match jsonLoads (String.mk (stripFencesChars content.data)) with
         | some j => j
         | none => intentFallback)

/-- The value under a key in a parsed object, last duplicate winning, as
in the dict `json.loads` builds. -/
def lookupLast (l : List (String × Json)) (k : String) : Option Json :=
  l.foldl (fun acc kv => if kv.1 = k then some kv.2 else acc) none

/-- Python subscription `j["intent"]`: a missing key raises `KeyError`
and subscripting a non-dict with a string raises `TypeError`. -/
def pyGetItem (j : Json) (k : String) : Except String Json :=
  match j with
  | .obj l =>
    match lookupLast l k with
    | some v => .ok v
    | none => .error ("KeyError: " ++ k)
  | _ => .error "TypeError: value is not a dict"

/-- Python `==` between a parsed value and a string literal: false for
any non-string value. -/
def Json.eqStr : Json → String → Bool
  | .str s, t => s == t
  | _, _ => false

/-- `call_rag_tool`: call the RAG tool wrapper, then either prefix
"RAG Query Error: " (when the reply contains "Error:") or clean the
reply; the surrounding `try` never fires since the wrapper is total. -/
def call_rag_tool (o : Oracles) (query : String) : String :=
  let rag_response := o.rag_query_via_mcp query
  if strContains rag_response "Error:" then "RAG Query Error: " ++ rag_response
  else rag_cleaning rag_response

/-- The fence stripping of `formulate_sql_query` (two independent `if`s,
unlike the classifier's `elif`). -/
def stripSqlFences (cs : List Char) : List Char :=
  let s := if ("```sql".data).isPrefixOf cs then cs.drop 6 else cs
  let s := if ("```".data).isPrefixOf s then s.drop 3 else s
  let s := if ("```".data).isSuffixOf s then s.take (s.length - 3) else s
  pyStripChars s

/-- `formulate_sql_query`: one model call (uncaught, a failure
propagates), strip, fence-strip, strip. -/
def formulate_sql_query (o : Oracles) (query rag_context : String) :
    Except String String :=
  match o.llmSql query rag_context with
  | .error e => .error e
  | .ok content => .ok (String.mk (stripSqlFences (pyStripChars content.data)))

/-- `call_sql_tool`: call the SQL tool wrapper, then either prefix
"SQL Query Error: " (when the result contains "Error:") or clean the
tabular result; the surrounding `try` never fires since the wrapper is
total. -/
def call_sql_tool (o : Oracles) (sql_query : String) : String :=
  let sql_result := o.sql_query_via_mcp sql_query
  if strContains sql_result "Error:" then "SQL Query Error: " ++ sql_result
  else clean_sql_result_formatting sql_result

/-- `generate_detailed_response`: the synthesis model call inside a
`try`; a failure falls back to the cleaned SQL result. -/
def generate_detailed_response (o : Oracles) (query sql_result : String) : String :=
  match o.llmSynth query sql_result with
  | .ok content => pyStrip content
  | .error _ => clean_sql_result_formatting sql_result

/-- The external calls the orchestrator node makes, in order: the intent
model call, the RAG tool call, the query-generation model call, the SQL
tool call, and the synthesis model call. -/
inductive CallEvent where
  | intentCall
  | ragCall (q : String)
  | sqlGenCall
  | sqlCall (q : String)
  | synthCall
deriving DecidableEq, Repr

/-- The canned greeting of the `general_greeting` branch. -/
def greetingText : String :=
  "Hello! I\x27m your Camera Feed Query Assistant. I can help you with questions about camera feeds, system configurations, encoding/decoding parameters, and data analysis. What would you like to know?"

/-- The fixed reply of the unknown-intent branch. -/
def unknownIntentText : String :=
  "I\x27m not sure how to help with that. Please ask about camera feeds, system configurations, or data analysis."

/-- `mcp_client_node`: the answer text of the single `AIMessage` it
returns (or the exception escaping it), paired with the trace of
external calls it made, in order.  The branches follow the source: empty
or non-human latest message short-circuits; otherwise the intent is
classified and dispatched on with `==` string comparisons. -/
def mcp_client_node (o : Oracles) (state : AgentState) :
    Except String String × List CallEvent :=
  match state.messages.getLast? with
  | none => (.ok "No message to process", [])
  | some latest =>
    match latest with
    | .human _ query =>
      (match analyze_query_intent o query with
       | .error e => (.error e, [.intentCall])
       | .ok intentJson =>
         match pyGetItem intentJson "intent" with
         | .error e => (.error e, [.intentCall])
         | .ok v =>
           if v.eqStr "general_greeting" then
             (.ok greetingText, [.intentCall])
           else if v.eqStr "metadata_query" then
             (.ok (call_rag_tool o query), [.intentCall, .ragCall query])
           else if v.eqStr "data_query" then
             let rag_response := call_rag_tool o query
             match formulate_sql_query o query rag_response with
             | .error e => (.error e, [.intentCall, .ragCall query, .sqlGenCall])
             | .ok sql_query =>
               let sql_result := call_sql_tool o sql_query
               let detailed := generate_detailed_response o query sql_result
               (.ok detailed,
                [.intentCall, .ragCall query, .sqlGenCall, .sqlCall sql_query,
                 .synthCall])
           else (.ok unknownIntentText, [.intentCall]))
    | _ => (.ok "Please provide a question to query the data", [])

/-- The summarization prompt text built by `summarize_conversation`
(`state.get("summary", "")` decides between extending and creating). -/
def summaryPromptText (summary : String) : String :=
  if summary = "" then "Create a summary of the conversation above:"
  else
    "This is summary of the conversation to date: " ++ summary ++
    "\n\nExtend the summary by taking into account the new messages above:"

/-- `summarize_conversation`: append the prompt `HumanMessage` (a fresh
object, its unreferenced UUID modelled as id 999), call the model
(uncaught: a failure propagates), and return the delta — the new summary
together with a `RemoveMessage` for every message except the last two
(`state["messages"][:-2]`). -/
def summarize_conversation (o : Oracles) (state : AgentState) :
    Except String (String × List LCMsg) :=
  let prompt := state.messages ++ [LCMsg.human 999 (summaryPromptText state.summary)]
  match o.llmSummarize prompt with
  | .error e => .error e
  | .ok text =>
    .ok (text,
      (state.messages.take (state.messages.length - 2)).map fun m =>
        LCMsg.remove m.msgId)

/-- The Summarize step as the graph executes it: the node's delta merged
into the state by the `add_messages` reducer (the summary channel is
plain replacement). -/
def applySummarize (o : Oracles) (state : AgentState) : Except String AgentState :=
  match summarize_conversation o state with
  | .error e => .error e
  | .ok sd =>
    .ok { state with summary := sd.1, messages := add_messages state.messages sd.2 }

/-- `route_after_start`: summarize first when the state holds more than
5 messages. -/
def route_after_start (state : AgentState) : String :=
  if state.messages.length > 5 then "summarize" else "mcp_client"

/-- The graph's vertices: the start node, the two worker nodes, and
`END`. -/
inductive GNode where
  | start
  | summarize
  | mcpClient
  | finish
deriving DecidableEq, Repr

/-- The successor function read off `build_graph`: the conditional edge
out of "start" maps `route_after_start`'s label through
`\x7b"summarize" ↦ summarize, "mcp_client" ↦ mcp_client\x7d`; the edges
summarize → mcp_client and mcp_client → END are unconditional. -/
def nextNode (state : AgentState) : GNode → Option GNode
  | .start =>
    if route_after_start state = "summarize" then some .summarize
    else if route_after_start state = "mcp_client" then some .mcpClient
    else none
  | .summarize => some .mcpClient
  | .mcpClient => some .finish
  | .finish => none

/-- The nodes a turn visits, following `nextNode` from a given node with
enough fuel for the longest path. -/
def traversalFrom (state : AgentState) : Nat → GNode → List GNode
  | 0, g => [g]
  | fuel + 1, g =>
    g :: (match nextNode state g with
          | some g2 => traversalFrom state fuel g2
          | none => [])

/-- The per-turn traversal, entered at the start node. -/
def traversal (state : AgentState) : List GNode :=
  traversalFrom state 4 .start

/-- One turn through the compiled graph: `start_node` (the identity),
the conditional edge, then the remaining nodes with each returned delta
merged by the reducer; `mcp_client`'s `AIMessage` gets a fresh id.  The
trace lists the external calls made before completion or the first
uncaught exception. -/
def runGraph (o : Oracles) (state : AgentState) :
    Except String AgentState × List CallEvent :=
  let step2 : Except String AgentState :=
    if route_after_start state = "summarize" then applySummarize o state
    else .ok state
  match step2 with
  | .error e => (.error e, [])
  | .ok st2 =>
    match mcp_client_node o st2 with
    | (.error e, tr) => (.error e, tr)
    | (.ok answer, tr) =>
      (.ok { st2 with
              messages :=
                add_messages st2.messages [LCMsg.ai (freshId st2.messages) answer] },
       tr)

/-- The first `AIMessage` content in a list (the forward scan
`GraphWithMemory.invoke` uses to pick the reply it persists). -/
def firstAI : List LCMsg → Option String
  | [] => none
  | .ai _ c :: _ => some c
  | _ :: rest => firstAI rest

/-- `GraphWithMemory.invoke` for a controller-built input (a single
`HumanMessage` holding the query): load the last 20 persisted messages,
save the user message, seed the graph with history plus the new message,
run it, and on success persist the first `AIMessage` of the final
state. -/
def graphInvoke (o : Oracles) (store : Store) (thread_id query : String) :
    (Except String AgentState × List CallEvent) × Store :=
  let store1 := save_message o.now store thread_id "user" query
  let input : AgentState :=
    { messages := seededMessages store thread_id query, tool_results := [],
      summary := "" }
  match runGraph o input with
  | (.error e, tr) => ((.error e, tr), store1)
  | (.ok result, tr) =>
    let store2 :=
      match firstAI result.messages with
      | some c => save_message o.now store1 thread_id "assistant" c
      | none => store1
    ((.ok result, tr), store2)

/-- The `/chat` request body (`query_models.py`): pydantic declares
only `query` and `include_metadata` — in particular no `thread_id`
field. -/
structure QueryRequest where
  query : String
  include_metadata : Option Bool

/-- The `/chat` response body (`query_models.py`): `response` plus three
optional fields the chatbot controller never sets (the float
`execution_time` is rendered rational; no modelled code populates it).
There is no `thread_id` field — the controller passes one as an extra
kwarg, which pydantic silently drops. -/
structure QueryResponse where
  response : String
  query_type : Option String
  execution_time : Option Rat
  metadata : Option (List (String × Json))

/-- Python attribute access `request.thread_id` on a `QueryRequest`:
the model declares no such field, so it raises
`AttributeError("\x27QueryRequest\x27 object has no attribute
\x27thread_id\x27")`. -/
def QueryRequest.threadIdAttr (_ : QueryRequest) : Except String String :=
  .error "\x27QueryRequest\x27 object has no attribute \x27thread_id\x27"

/-- `send_message` (the chatbot controller): the `try` body begins with
`request.thread_id or "default"`, and the attribute access raises on
every request; the `except` turns it into the `HTTPException(500, ...)`
detail on the error side, before any store write or graph invocation.
The rest of the body — the Python-`or` defaulting, the graph call, the
reply extraction from the last message, the `QueryResponse` build whose
extra `thread_id` kwarg pydantic drops — is kept faithful but sits
behind that raise as dead code. -/
def send_message (o : Oracles) (store : Store) (request : QueryRequest) :
    Except String QueryResponse × Store :=
  match request.threadIdAttr with
  | .error e => (.error ("Error processing message: " ++ e), store)
  | .ok t =>
    let thread_id := if t = "" then "default" else t
    match graphInvoke o store thread_id request.query with
    | ((.error e, _), store1) => (.error ("Error processing message: " ++ e), store1)
    | ((.ok result, _), store1) =>
      let response_text :=
        match (result.messages.reverse).head? with
        | some m => m.content
        | none => "No response generated"
      (.ok { response := response_text
             query_type := none
             execution_time := none
             metadata := none }, store1)

/-! ## Helper lemmas -/

theorem takeLastN_of_le {α : Type} {n : Nat} {l : List α} (h : l.length ≤ n) :
    takeLastN n l = l := by
  simp [takeLastN, Nat.sub_eq_zero_of_le h]

theorem takeLastN_length {α : Type} (n : Nat) (l : List α) :
    (takeLastN n l).length = min n l.length := by
  simp [takeLastN]
  omega

theorem takeLastN_eq_rtake {α : Type} (n : Nat) (l : List α) :
    takeLastN n l = l.rtake n := rfl

theorem takeLastN_takeLastN_append {α : Type} (n : Nat) (l r : List α) :
    takeLastN n (takeLastN n l ++ r) = takeLastN n (l ++ r) := by
  simp only [takeLastN_eq_rtake, List.rtake_eq_reverse_take_reverse,
    List.reverse_append, List.reverse_reverse,
    List.take_append_eq_append_take, List.take_take]
  rw [Nat.min_eq_left (Nat.sub_le n r.reverse.length)]

/-- `save_message` seen from the saved thread. -/
theorem save_message_self (now : String) (store : Store) (tid role content : String) :
    save_message now store tid role content tid
      = (if (store tid ++ [StoredMsg.mk role content now]).length > 50 then
          takeLastN 50 (store tid ++ [StoredMsg.mk role content now])
         else store tid ++ [StoredMsg.mk role content now]) := by
  simp [save_message]

/-- The fold of `save_message` over one thread, projected to that
thread's list. -/
theorem fold_save_apply (now tid : String) (entries : List (String × String)) :
    ∀ store : Store,
      (entries.foldl (fun st rc => save_message now st tid rc.1 rc.2) store) tid
        = entries.foldl
            (fun l rc =>
              if (l ++ [⟨rc.1, rc.2, now⟩]).length > 50 then
                takeLastN 50 (l ++ [⟨rc.1, rc.2, now⟩])
              else l ++ [⟨rc.1, rc.2, now⟩])
            (store tid) := by
  induction entries with
  | nil => intro store; rfl
  | cons e rest ih =>
    intro store
    rw [List.foldl_cons, List.foldl_cons, ih, save_message_self]

/-- The thread-level fold keeps exactly the last 50 entries. -/
theorem fold_saveThread (now : String) (entries : List (String × String)) :
    ∀ l : List StoredMsg, l.length ≤ 50 →
      entries.foldl
          (fun l rc =>
            if (l ++ [⟨rc.1, rc.2, now⟩]).length > 50 then
              takeLastN 50 (l ++ [⟨rc.1, rc.2, now⟩])
            else l ++ [⟨rc.1, rc.2, now⟩])
          l
        = takeLastN 50 (l ++ entries.map fun rc => ⟨rc.1, rc.2, now⟩) := by
  induction entries with
  | nil =>
    intro l hl
    simp [takeLastN_of_le hl]
  | cons e rest ih =>
    intro l hl
    rw [List.foldl_cons]
    have hstep :
        (if (l ++ [(⟨e.1, e.2, now⟩ : StoredMsg)]).length > 50 then
          takeLastN 50 (l ++ [⟨e.1, e.2, now⟩])
         else l ++ [⟨e.1, e.2, now⟩])
          = takeLastN 50 (l ++ [⟨e.1, e.2, now⟩]) := by
      by_cases h : (l ++ [(⟨e.1, e.2, now⟩ : StoredMsg)]).length > 50
      · rw [if_pos h]
      · rw [if_neg h, takeLastN_of_le (by omega)]
    rw [hstep, ih _ (by rw [takeLastN_length]; omega),
      takeLastN_takeLastN_append]
    simp

/-- `get_conversation_history` for a positive limit is the converted
last-`limit` slice. -/
theorem get_history_eq (store : Store) (tid : String) (limit : Nat)
    (h : limit ≠ 0) :
    get_conversation_history store tid limit
      = toLCMessages (takeLastN limit (store tid)) := by
  unfold get_conversation_history pySliceLastNeg
  by_cases hlen : (store tid).length > limit
  · simp [hlen, h]
  · simp only [if_neg hlen]
    rw [takeLastN_of_le (by omega)]

/-- Conversion never lengthens a history slice. -/
theorem toLCMessages_length_le (l : List StoredMsg) :
    (toLCMessages l).length ≤ l.length := by
  calc (toLCMessages l).length ≤ l.enum.length := List.length_filterMap_le _ _
    _ = l.length := List.enum_length

/-! ## C3 -/

/-- C3: starting from a fresh thread, after any sequence of sequential
`save_message` appends on one thread_id the stored history has length
`min N 50` and equals the last `min N 50` appended messages in their
original insertion order — the bound is kept by evicting the oldest
entries first. -/
theorem store_bounded_retention (entries : List (String × String))
    (tid now : String) :
    ((entries.foldl (fun st rc => save_message now st tid rc.1 rc.2) emptyStore) tid).length
        = min entries.length 50
    ∧ (entries.foldl (fun st rc => save_message now st tid rc.1 rc.2) emptyStore) tid
        = takeLastN 50 (entries.map fun rc => ⟨rc.1, rc.2, now⟩) := by
  have heq :
      (entries.foldl (fun st rc => save_message now st tid rc.1 rc.2) emptyStore) tid
        = takeLastN 50 (entries.map fun rc => ⟨rc.1, rc.2, now⟩) := by
    rw [fold_save_apply]
    have h0 : emptyStore tid = [] := rfl
    rw [h0, fold_saveThread now entries [] (by simp)]
    simp
  refine ⟨?_, heq⟩
  rw [heq, takeLastN_length]
  simp [Nat.min_comm]

/-! ## C9 -/

/-- A store holding exactly one saved message, for the zero-limit
behaviour of `get_conversation_history`. -/
def c9store : Store := save_message "ts" emptyStore "t" "user" "hi"

/-- C9 counterexample: with `limit = 0`, Python's `l[-0:]` slice is the
whole list, so `get_conversation_history` returns every stored message
instead of at most zero. -/
theorem get_history_limit_zero_counterexample :
    get_conversation_history c9store "t" 0 = [LCMsg.human 0 "hi"]
    ∧ ¬((get_conversation_history c9store "t" 0).length ≤ 0) :=
  ⟨rfl, by decide⟩

/-- C9 amended: for every positive limit, `get_conversation_history`
returns at most `limit` messages — the converted last-`limit` slice of
the stored history, in insertion order — and the empty sequence for an
unknown thread; it never fails (it is a total function). -/
theorem get_history_bounded (store : Store) (tid : String) (limit : Nat)
    (h : 1 ≤ limit) :
    (get_conversation_history store tid limit).length ≤ limit
    ∧ get_conversation_history store tid limit
        = toLCMessages (takeLastN limit (store tid))
    ∧ (store tid = [] → get_conversation_history store tid limit = []) := by
  have heq := get_history_eq store tid limit (by omega)
  refine ⟨?_, heq, ?_⟩
  · rw [heq]
    calc (toLCMessages (takeLastN limit (store tid))).length
        ≤ (takeLastN limit (store tid)).length := toLCMessages_length_le _
      _ ≤ limit := by rw [takeLastN_length]; omega
  · intro hempty
    rw [heq, hempty]
    simp [takeLastN, toLCMessages]

/-- Witness for `get_history_bounded` at a concrete store and limit. -/
theorem get_history_bounded_witness :
    1 ≤ 1
    ∧ ((get_conversation_history c9store "t" 1).length ≤ 1
      ∧ get_conversation_history c9store "t" 1
          = toLCMessages (takeLastN 1 (c9store "t"))
      ∧ (c9store "t" = [] → get_conversation_history c9store "t" 1 = [])) :=
  ⟨by decide, get_history_bounded c9store "t" 1 (by decide)⟩

/-! ## C10 -/

/-- C10: the per-turn state is seeded with the converted last-20 slice
of the persisted history followed by the single new user message, so the
graph never sees more than 21 messages however long the stored history
is. -/
theorem seeded_state_bounded (store : Store) (tid q : String) :
    seededMessages store tid q
      = toLCMessages (takeLastN 20 (store tid)) ++ [LCMsg.human 20 q]
    ∧ (seededMessages store tid q).length ≤ 21 := by
  have heq := get_history_eq store tid 20 (by omega)
  constructor
  · unfold seededMessages
    rw [heq]
  · unfold seededMessages
    rw [heq]
    simp only [List.length_append, List.length_singleton]
    have h1 := toLCMessages_length_le (takeLastN 20 (store tid))
    have h2 : (takeLastN 20 (store tid)).length ≤ 20 := by
      rw [takeLastN_length]; omega
    omega

/-! ## C4 -/

/-- C4: the conditional edge out of Start picks Summarize exactly when
the state holds more than 5 messages and Orchestrate otherwise; the
Summarize → Orchestrate and Orchestrate → End edges are unconditional,
and the per-turn traversal visits no node twice. -/
theorem workflow_routing (state : AgentState) :
    (nextNode state .start = some .summarize ↔ 5 < state.messages.length)
    ∧ nextNode state .start
        = some (if 5 < state.messages.length then .summarize else .mcpClient)
    ∧ nextNode state .summarize = some .mcpClient
    ∧ nextNode state .mcpClient = some .finish
    ∧ (traversal state).Nodup := by
  by_cases h : 5 < state.messages.length <;>
    simp [nextNode, route_after_start, traversal, traversalFrom, h]

/-! ## C5 -/

/-- Removing, via the reducer, the ids of a prefix deletes exactly that
prefix when ids are distinct. -/
theorem add_messages_remove_prefix :
    ∀ pre rest : List LCMsg, (((pre ++ rest).map LCMsg.msgId)).Nodup →
      add_messages (pre ++ rest) (pre.map fun m => LCMsg.remove m.msgId) = rest := by
  intro pre
  induction pre with
  | nil => intro rest _; rfl
  | cons p pre ih =>
    intro rest hnd
    have hp : p.msgId ∉ (pre ++ rest).map LCMsg.msgId := by
      rw [List.cons_append, List.map_cons] at hnd
      exact (List.nodup_cons.mp hnd).1
    have hfilter :
        ((p :: (pre ++ rest)).filter fun x => x.msgId ≠ p.msgId) = pre ++ rest := by
      rw [List.filter_cons_of_neg (by simp), List.filter_eq_self.mpr]
      intro a ha
      simp only [ne_eq, decide_eq_true_eq]
      intro hcontra
      exact hp (hcontra ▸ List.mem_map_of_mem LCMsg.msgId ha)
    show add_messages (addOneMessage (p :: (pre ++ rest)) (.remove p.msgId))
        (pre.map fun m => LCMsg.remove m.msgId) = rest
    rw [show addOneMessage (p :: (pre ++ rest)) (.remove p.msgId)
          = (p :: (pre ++ rest)).filter fun x => x.msgId ≠ p.msgId from rfl,
      hfilter]
    apply ih
    rw [List.cons_append, List.map_cons] at hnd
    exact (List.nodup_cons.mp hnd).2

/-- Removing the ids of `take k` leaves `drop k`. -/
theorem add_messages_remove_take (ms : List LCMsg) (k : Nat)
    (h : (ms.map LCMsg.msgId).Nodup) :
    add_messages ms ((ms.take k).map fun m => LCMsg.remove m.msgId) = ms.drop k := by
  have h2 := add_messages_remove_prefix (ms.take k) (ms.drop k)
    (by rw [List.take_append_drop]; exact h)
  rwa [List.take_append_drop] at h2

/-- C5: when the model call succeeds, the Summarize step replaces the
summary with the returned text and reduces the message sequence to its
two most recent entries (the original sequence when it already had at
most two), discarding all older raw messages. -/
theorem summarize_node_trims (o : Oracles) (st : AgentState) (t : String)
    (hids : (st.messages.map LCMsg.msgId).Nodup)
    (hok : o.llmSummarize
        (st.messages ++ [LCMsg.human 999 (summaryPromptText st.summary)]) = .ok t) :
    applySummarize o st
      = .ok { st with
          summary := t
          messages := st.messages.drop (st.messages.length - 2) } := by
  have key := add_messages_remove_take st.messages (st.messages.length - 2) hids
  rw [List.map_take] at key
  simp [applySummarize, summarize_conversation, hok, key]

/-- Oracle for the Summarize witness: the model reliably answers. -/
def c5oracle : Oracles :=
  { llmSummarize := fun _ => .ok "sum"
    llmIntent := fun _ => .ok ""
    llmSql := fun _ _ => .ok ""
    llmSynth := fun _ _ => .ok ""
    rag_query_via_mcp := fun _ => ""
    sql_query_via_mcp := fun _ => ""
    now := "ts" }

/-- A three-message state with distinct ids. -/
def c5state : AgentState :=
  { messages := [.human 0 "a", .ai 1 "b", .human 2 "c"], tool_results := [],
    summary := "" }

/-- Witness for `summarize_node_trims` at a concrete state and oracle. -/
theorem summarize_node_trims_witness :
    ((c5state.messages.map LCMsg.msgId).Nodup
      ∧ c5oracle.llmSummarize
          (c5state.messages ++ [LCMsg.human 999 (summaryPromptText c5state.summary)])
        = .ok "sum")
    ∧ applySummarize c5oracle c5state
        = .ok { c5state with
            summary := "sum"
            messages := c5state.messages.drop (c5state.messages.length - 2) } :=
  ⟨⟨by decide, rfl⟩, summarize_node_trims c5oracle c5state "sum" (by decide) rfl⟩

/-! ## C1 -/

/-- Oracle whose summarization model call raises. -/
def c1oracle : Oracles :=
  { llmSummarize := fun _ => .error "boom"
    llmIntent := fun _ => .ok ""
    llmSql := fun _ _ => .ok ""
    llmSynth := fun _ _ => .ok ""
    rag_query_via_mcp := fun _ => ""
    sql_query_via_mcp := fun _ => ""
    now := "ts" }

/-- A thread with five persisted messages, enough to route the next turn
through Summarize. -/
def c1store : Store := fun t =>
  if t = "t" then
    [⟨"user", "q1", "ts"⟩, ⟨"assistant", "a1", "ts"⟩, ⟨"user", "q2", "ts"⟩,
     ⟨"assistant", "a2", "ts"⟩, ⟨"user", "q3", "ts"⟩]
  else []

/-- C1 counterexample: the entry point raises on every request — here
with a summarization-failure scenario staged and five messages
persisted — because `request.thread_id` does not exist on
`QueryRequest`; the 500-error carries the `AttributeError` text, no
failure is ever substituted as answer text, and the store is untouched
by the endpoint.  At the graph layer the staged summarization failure
escapes `GraphWithMemory.invoke` as an exception while the user message
saved before the graph ran stays in the thread history. -/
theorem turn_failure_counterexample :
    send_message c1oracle c1store ⟨"q6", none⟩
        = (.error "Error processing message: \x27QueryRequest\x27 object has no attribute \x27thread_id\x27",
           c1store)
    ∧ (graphInvoke c1oracle c1store "t" "q6").1.1 = .error "boom"
    ∧ (graphInvoke c1oracle c1store "t" "q6").2 "t"
        = c1store "t" ++ [⟨"user", "q6", "ts"⟩] :=
  ⟨rfl, rfl, rfl⟩

/-- C1 amended: the conversation entry point raises
`HTTPException(500, ...)` on every request before any store write or
graph invocation (`QueryRequest` declares no `thread_id`), so no node
failure is ever substituted as answer text there and the endpoint never
touches the history; at the graph layer, a summarization model-call
failure escapes `GraphWithMemory.invoke` as an exception and the user
message it saved before running the graph remains in the thread
history — a partial state visible to subsequent direct invocations. -/
theorem summarize_failure_escapes (o : Oracles) (store : Store)
    (request : QueryRequest) (tid q e : String)
    (h5 : 5 < (seededMessages store tid q).length)
    (hfail : o.llmSummarize
        (seededMessages store tid q ++ [LCMsg.human 999 (summaryPromptText "")])
      = .error e) :
    send_message o store request
        = (.error "Error processing message: \x27QueryRequest\x27 object has no attribute \x27thread_id\x27",
           store)
    ∧ (graphInvoke o store tid q).1.1 = .error e
    ∧ (graphInvoke o store tid q).2 tid
        = (save_message o.now store tid "user" q) tid := by
  have hroute :
      route_after_start
        { messages := seededMessages store tid q, tool_results := [],
          summary := "" } = "summarize" := by
    simp [route_after_start, h5]
  refine ⟨rfl, ?_, ?_⟩ <;>
    simp [graphInvoke, runGraph, hroute, applySummarize,
      summarize_conversation, hfail]

/-- Witness for `summarize_failure_escapes` on the concrete failing
scenario. -/
theorem summarize_failure_escapes_witness :
    (5 < (seededMessages c1store "t" "q6").length
      ∧ c1oracle.llmSummarize
          (seededMessages c1store "t" "q6" ++ [LCMsg.human 999 (summaryPromptText "")])
        = .error "boom")
    ∧ (send_message c1oracle c1store ⟨"q6", none⟩
          = (.error "Error processing message: \x27QueryRequest\x27 object has no attribute \x27thread_id\x27",
             c1store)
      ∧ (graphInvoke c1oracle c1store "t" "q6").1.1 = .error "boom"
      ∧ (graphInvoke c1oracle c1store "t" "q6").2 "t"
          = (save_message c1oracle.now c1store "t" "user" "q6") "t") :=
  ⟨⟨by decide, rfl⟩,
    summarize_failure_escapes c1oracle c1store ⟨"q6", none⟩ "t" "q6" "boom"
      (by decide) rfl⟩

/-! ## C2 -/

/-- Oracle for the data-query pipeline with a failing SQL tool: the
intent model classifies as `data_query`, query generation and synthesis
succeed, and the structured-query tool reports a connection error. -/
def c2oracle : Oracles :=
  { llmSummarize := fun _ => .ok "sum"
    llmIntent := fun _ =>
      .ok "\x7b\"intent\": \"data_query\", \"confidence\": 0.9, \"reasoning\": \"r\"\x7d"
    llmSql := fun _ _ => .ok "SELECT 1"
    llmSynth := fun _ _ => .ok "synthesized answer"
    rag_query_via_mcp := fun _ => "ctx"
    sql_query_via_mcp := fun _ => "Error: Connection error: boom"
    now := "ts" }

/-- A one-message state holding the user's data question. -/
def c2state : AgentState :=
  { messages := [.human 0 "How many?"], tool_results := [], summary := "" }

/-- C2 counterexample: with the structured-query tool failing at step 3,
the orchestrator does not short-circuit — the synthesis call is still
made (it closes the trace) and the turn's answer is the synthesis
output, not an error-formatted text; the tool failure only shows up as
the "SQL Query Error: "-prefixed string passed into synthesis. -/
theorem sql_failure_no_short_circuit_counterexample :
    (mcp_client_node c2oracle c2state).2
        = [.intentCall, .ragCall "How many?", .sqlGenCall, .sqlCall "SELECT 1",
           .synthCall]
    ∧ (mcp_client_node c2oracle c2state).1 = .ok "synthesized answer"
    ∧ call_sql_tool c2oracle "SELECT 1"
        = "SQL Query Error: Error: Connection error: boom"
    ∧ CallEvent.synthCall ∈ (mcp_client_node c2oracle c2state).2 :=
  ⟨rfl, rfl, rfl, by decide⟩

/-- C2 amended: a data_query turn performs the four calls in order
(context retrieval, query generation, structured query, synthesis), and
a structured-query tool failure at step 3 does not short-circuit: the
"SQL Query Error: "-prefixed text is handed to the synthesis call, which
is still made and produces the turn's answer. -/
theorem data_query_four_steps (o : Oracles) (st : AgentState) (i : Nat)
    (q : String) (j : Json) (sq : String)
    (hlast : st.messages.getLast? = some (.human i q))
    (hintent : analyze_query_intent o q = .ok j)
    (hdq : pyGetItem j "intent" = .ok (.str "data_query"))
    (hsql : formulate_sql_query o q (call_rag_tool o q) = .ok sq)
    (hfail : strContains (o.sql_query_via_mcp sq) "Error:" = true) :
    (mcp_client_node o st).2
        = [.intentCall, .ragCall q, .sqlGenCall, .sqlCall sq, .synthCall]
    ∧ (mcp_client_node o st).1
        = .ok (generate_detailed_response o q
            ("SQL Query Error: " ++ o.sql_query_via_mcp sq)) := by
  have hcall : call_sql_tool o sq = "SQL Query Error: " ++ o.sql_query_via_mcp sq := by
    simp [call_sql_tool, hfail]
  constructor <;>
    simp [mcp_client_node, hlast, hintent, hdq, hsql, hcall, Json.eqStr]

/-- Witness for `data_query_four_steps` on the concrete scenario. -/
theorem data_query_four_steps_witness :
    (c2state.messages.getLast? = some (.human 0 "How many?")
      ∧ analyze_query_intent c2oracle "How many?"
          = .ok (.obj [("intent", .str "data_query"),
                       ("confidence", .num (mkRat 9 10)), ("reasoning", .str "r")])
      ∧ pyGetItem (.obj [("intent", .str "data_query"),
              ("confidence", .num (mkRat 9 10)), ("reasoning", .str "r")]) "intent"
          = .ok (.str "data_query")
      ∧ formulate_sql_query c2oracle "How many?" (call_rag_tool c2oracle "How many?")
          = .ok "SELECT 1"
      ∧ strContains (c2oracle.sql_query_via_mcp "SELECT 1") "Error:" = true)
    ∧ ((mcp_client_node c2oracle c2state).2
          = [.intentCall, .ragCall "How many?", .sqlGenCall, .sqlCall "SELECT 1",
             .synthCall]
      ∧ (mcp_client_node c2oracle c2state).1
          = .ok (generate_detailed_response c2oracle "How many?"
              ("SQL Query Error: " ++ c2oracle.sql_query_via_mcp "SELECT 1"))) :=
  ⟨⟨rfl, rfl, rfl, rfl, rfl⟩,
    data_query_four_steps c2oracle c2state 0 "How many?"
      (.obj [("intent", .str "data_query"), ("confidence", .num (mkRat 9 10)),
             ("reasoning", .str "r")]) "SELECT 1" rfl rfl rfl rfl rfl⟩

/-! ## C6 -/

/-- Oracle whose intent model returns well-formed JSON that does not
conform to the expected record shape. -/
def c6oracle : Oracles :=
  { llmSummarize := fun _ => .ok ""
    llmIntent := fun _ => .ok "\x7b\"foo\": 1\x7d"
    llmSql := fun _ _ => .ok ""
    llmSynth := fun _ _ => .ok ""
    rag_query_via_mcp := fun _ => ""
    sql_query_via_mcp := fun _ => ""
    now := "ts" }

/-- C6 counterexample: a classifier output that parses as JSON but is
not a conforming record is returned unvalidated — not the
metadata_query/0.5 fallback — and reading its "intent" field raises,
which crashes the turn downstream. -/
theorem intent_nonconforming_counterexample :
    analyze_query_intent c6oracle "q" = .ok (Json.obj [("foo", Json.num 1)])
    ∧ pyGetItem (Json.obj [("foo", Json.num 1)]) "intent"
        = .error "KeyError: intent"
    ∧ analyze_query_intent c6oracle "q" ≠ .ok intentFallback := by
  refine ⟨rfl, rfl, ?_⟩
  intro hcontra
  have : Json.obj [("foo", Json.num 1)] = intentFallback := by
    have h1 : analyze_query_intent c6oracle "q"
        = .ok (Json.obj [("foo", Json.num 1)]) := rfl
    exact Except.ok.inj (h1 ▸ hcontra)
  simp [intentFallback] at this

/-- C6 amended: the fallback fires exactly on `json.loads` failure —
text that is not valid JSON after fence stripping yields the
metadata_query record with confidence 0.5 and never `data_query` —
while well-formed JSON is returned without validation. -/
theorem intent_fallback_on_invalid_json (o : Oracles) (q content : String)
    (hc : o.llmIntent q = .ok content)
    (hp : jsonLoads (String.mk (stripFencesChars content.data)) = none) :
    analyze_query_intent o q = .ok intentFallback
    ∧ pyGetItem intentFallback "intent" = .ok (.str "metadata_query")
    ∧ pyGetItem intentFallback "confidence" = .ok (.num (mkRat 1 2))
    ∧ pyGetItem intentFallback "intent" ≠ .ok (.str "data_query") := by
  refine ⟨by simp [analyze_query_intent, hc, hp], rfl, rfl, ?_⟩
  intro hcontra
  have := Except.ok.inj hcontra
  simp at this

/-- Oracle whose intent model returns plain prose. -/
def c6oracle2 : Oracles :=
  { llmSummarize := fun _ => .ok ""
    llmIntent := fun _ => .ok "I think this is a data question."
    llmSql := fun _ _ => .ok ""
    llmSynth := fun _ _ => .ok ""
    rag_query_via_mcp := fun _ => ""
    sql_query_via_mcp := fun _ => ""
    now := "ts" }

/-- Witness for `intent_fallback_on_invalid_json` on plain prose. -/
theorem intent_fallback_on_invalid_json_witness :
    (c6oracle2.llmIntent "q" = .ok "I think this is a data question."
      ∧ jsonLoads
          (String.mk (stripFencesChars "I think this is a data question.".data))
        = none)
    ∧ (analyze_query_intent c6oracle2 "q" = .ok intentFallback
      ∧ pyGetItem intentFallback "intent" = .ok (.str "metadata_query")
      ∧ pyGetItem intentFallback "confidence" = .ok (.num (mkRat 1 2))
      ∧ pyGetItem intentFallback "intent" ≠ .ok (.str "data_query")) :=
  ⟨⟨rfl, rfl⟩,
    intent_fallback_on_invalid_json c6oracle2 "q"
      "I think this is a data question." rfl rfl⟩

/-! ## C7 -/

/-- C7 counterexample: the claimed output is wrong — deleting the
separator-dash line leaves its two surrounding newlines, and the
collapse step only rewrites runs of three or more newlines, so a blank
line remains. -/
theorem sql_cleaning_vector_counterexample :
    clean_sql_result_formatting "Query Results (2 rows):\nid|name\n----\n1|a\n2|b"
      ≠ "id|name\n1|a\n2|b" := by
  decide

/-- C7 amended: on the given input the cleaner removes the banner line
and empties the separator-dash line but keeps that line's newlines, so
the output retains one blank line: `"id|name\n\n1|a\n2|b"`. -/
theorem sql_cleaning_vector :
    clean_sql_result_formatting "Query Results (2 rows):\nid|name\n----\n1|a\n2|b"
      = "id|name\n\n1|a\n2|b" := rfl

/-! ## C8 -/

/-- C8 counterexample: the cleaning pipeline is not idempotent —
italic-stripping can expose an "Answer:" label that only the next pass
removes. -/
theorem rag_cleaning_not_idempotent_counterexample :
    rag_cleaning (rag_cleaning "*Answer:* hi") ≠ rag_cleaning "*Answer:* hi" := by
  decide

/-- C8 amended: on the given input the pipeline strips the label, the
sources section and the emphasis markers, returning "Hello world"; it is
not idempotent in general. -/
theorem rag_cleaning_vector :
    rag_cleaning "Answer: **Hello** world\n\nSources:\n1. foo" = "Hello world" := rfl

end CanyonCode
